import Mathlib

/-!
# Verification of the corner-monitor metrics sampler core

Shallow embedding of the Rust sources under `src-tauri/src/monitor/`
(`types.rs`, `memory.rs`, `disk.rs`, `network.rs`, `mod.rs`) into Lean 4,
together with proofs of the frozen specification claims.

Embedding conventions:
* Rust `u64` counters become `Nat`; `saturating_sub` is `Nat` subtraction
  (which truncates at zero, exactly the saturating behaviour).
* Rust `f32`/`f64` arithmetic on the computed fields (percentages, rates)
  is modelled as exact rational arithmetic on `ℚ`; the `as u64` cast of a
  nonnegative `f64` rate is modelled as `Int.toNat ∘ Int.floor`, the Rust
  cast's truncation toward zero on values that are nonnegative.
* `std::time::Instant` is modelled as a rational number of seconds; Rust's
  `Instant::duration_since` saturates at zero when the other instant is
  later, hence `elapsedSec` below takes a `max` with `0`.
* The `sysinfo` crate is the environment: each `collect()` takes as an
  explicit argument the data that `refresh` would have produced (the list
  of interfaces with their cumulative counters, the list of mounted disks,
  the memory readings).  The `HashMap<String, NetworkSnapshot>` is embedded
  as an association list with `HashMap` lookup/insert semantics.
* The `Monitor` orchestrator (`mod.rs`) is embedded as a sequential state
  machine: `start`/`stop` act on the atomic running flag and the join-handle
  list (modelled by its length); the background worker's asynchronous
  activity is outside the sequential claims treated here.
-/

set_option autoImplicit false

namespace CornerMonitor

/-! ## Data model (`types.rs`) -/

/-- `CpuCoreInfo` from `types.rs`: per-core name, usage percent, frequency. -/
structure CpuCoreInfo where
  name : String
  usage : ℚ
  frequency : Nat
  deriving Repr, DecidableEq

/-- `CpuInfo` from `types.rs`. -/
structure CpuInfo where
  brand : String
  total_usage : ℚ
  cores : List CpuCoreInfo
  temperature : Option ℚ
  physical_core_count : Option Nat
  deriving Repr, DecidableEq

/-- `impl Default for CpuInfo` from `types.rs`. -/
def CpuInfo.default : CpuInfo :=
  { brand := ""
    total_usage := 0
    cores := []
    temperature := none
    physical_core_count := none }

/-- `MemoryInfo` from `types.rs`. -/
structure MemoryInfo where
  total : Nat
  used : Nat
  available : Nat
  usage_percent : ℚ
  swap_total : Nat
  swap_used : Nat
  swap_usage_percent : ℚ
  deriving Repr, DecidableEq

/-- `impl Default for MemoryInfo` from `types.rs`. -/
def MemoryInfo.default : MemoryInfo :=
  { total := 0
    used := 0
    available := 0
    usage_percent := 0
    swap_total := 0
    swap_used := 0
    swap_usage_percent := 0 }

/-- `DiskDetail` from `types.rs`. -/
structure DiskDetail where
  name : String
  mount_point : String
  file_system : String
  total : Nat
  used : Nat
  available : Nat
  usage_percent : ℚ
  is_removable : Bool
  deriving Repr, DecidableEq

/-- `DiskInfo` from `types.rs`. -/
structure DiskInfo where
  disks : List DiskDetail
  total : Nat
  total_used : Nat
  total_available : Nat
  total_usage_percent : ℚ
  deriving Repr, DecidableEq

/-- `impl Default for DiskInfo` from `types.rs`. -/
def DiskInfo.default : DiskInfo :=
  { disks := []
    total := 0
    total_used := 0
    total_available := 0
    total_usage_percent := 0 }

/-- `NetworkInterfaceInfo` from `types.rs`. -/
structure NetworkInterfaceInfo where
  name : String
  upload_speed : Nat
  download_speed : Nat
  total_uploaded : Nat
  total_downloaded : Nat
  deriving Repr, DecidableEq

/-- `NetworkInfo` from `types.rs`. -/
structure NetworkInfo where
  interfaces : List NetworkInterfaceInfo
  total_upload_speed : Nat
  total_download_speed : Nat
  total_uploaded : Nat
  total_downloaded : Nat
  deriving Repr, DecidableEq

/-- `impl Default for NetworkInfo` from `types.rs`. -/
def NetworkInfo.default : NetworkInfo :=
  { interfaces := []
    total_upload_speed := 0
    total_download_speed := 0
    total_uploaded := 0
    total_downloaded := 0 }

/-- `SystemInfo` from `types.rs`. -/
structure SystemInfo where
  cpu : CpuInfo
  memory : MemoryInfo
  disk : DiskInfo
  network : NetworkInfo
  timestamp : Nat
  deriving Repr, DecidableEq

/-- `MonitorConfig` from `types.rs`; the four intervals in milliseconds. -/
structure MonitorConfig where
  cpu_interval : Nat
  memory_interval : Nat
  disk_interval : Nat
  network_interval : Nat
  deriving Repr, DecidableEq

/-- `impl Default for MonitorConfig`: 5 s / 10 s / 300 s / 3 s. -/
def MonitorConfig.default : MonitorConfig :=
  { cpu_interval := 5000
    memory_interval := 10000
    disk_interval := 300000
    network_interval := 3000 }

/-! ## Network collector (`network.rs`) -/

/-- The private `NetworkSnapshot` from `network.rs`: last-seen cumulative
counters of one interface and the `Instant` of that observation (modelled as
rational seconds). -/
structure NetworkSnapshot where
  received : Nat
  transmitted : Nat
  timestamp : ℚ
  deriving Repr, DecidableEq

/-- One entry of the `sysinfo` interface enumeration that
`self.networks.iter()` walks after `refresh`: the interface name and its
current cumulative received/transmitted byte counters. -/
structure NetIfSample where
  name : String
  received : Nat
  transmitted : Nat
  deriving Repr, DecidableEq

/-- Association-list embedding of the `HashMap<String, NetworkSnapshot>`
field `last_snapshot`: lookup by key (`HashMap::get`). -/
def lookupSnap : List (String × NetworkSnapshot) → String → Option NetworkSnapshot
  | [], _ => none
  | (k, v) :: rest, n => if k = n then some v else lookupSnap rest n

/-- Association-list embedding of `HashMap::insert`: overwrite the entry with
the given key if present, otherwise append it. -/
def insertSnap : List (String × NetworkSnapshot) → String → NetworkSnapshot →
    List (String × NetworkSnapshot)
  | [], n, v => [(n, v)]
  | (k, w) :: rest, n, v =>
      if k = n then (n, v) :: rest else (k, w) :: insertSnap rest n v

/-- `NetworkCollector` from `network.rs`; the `networks : Networks` handle is
the environment (its refreshed contents are passed to `collect` as the sample
list), so only the `last_snapshot` map is state. -/
structure NetworkCollector where
  last_snapshot : List (String × NetworkSnapshot)

/-- `NetworkCollector::new()`: empty baseline map. -/
def NetworkCollector.new : NetworkCollector :=
  { last_snapshot := [] }

/-- `now.duration_since(last.timestamp).as_secs_f64()`: elapsed seconds,
saturating at zero (Rust's `Instant::duration_since` returns a zero duration
when the other instant is later). -/
def elapsedSec (now ts : ℚ) : ℚ :=
  max (now - ts) 0

/-- The rate computation of `NetworkCollector::collect` (the
`if let Some(last) = self.last_snapshot.get(name)` block): returns
`(download_speed, upload_speed)`.  The division result's `as u64` cast is
`Int.toNat ∘ Int.floor` on the nonnegative rational. -/
def computeRates (last : Option NetworkSnapshot) (now : ℚ)
    (currentReceived currentTransmitted : Nat) : Nat × Nat :=
  match last with
  | some l =>
      let elapsed := elapsedSec now l.timestamp
      if 0 < elapsed then
        ((⌊((currentReceived - l.received : Nat) : ℚ) / elapsed⌋).toNat,
         (⌊((currentTransmitted - l.transmitted : Nat) : ℚ) / elapsed⌋).toNat)
      else (0, 0)
  | none => (0, 0)

/-- Accumulator of the `for (name, network) in self.networks.iter()` loop in
`NetworkCollector::collect`. -/
structure NetCollectAcc where
  interfaces : List NetworkInterfaceInfo
  total_upload_speed : Nat
  total_download_speed : Nat
  total_uploaded : Nat
  total_downloaded : Nat
  last_snapshot : List (String × NetworkSnapshot)

/-- The interface loop of `NetworkCollector::collect`: for each enumerated
interface, compute the rates from the baseline map, overwrite that
interface's baseline with the current counters and timestamp, emit an
`NetworkInterfaceInfo`, and accumulate the four totals. -/
def netCollectLoop (now : ℚ) :
    List NetIfSample → List (String × NetworkSnapshot) → NetCollectAcc
  | [], m =>
      { interfaces := []
        total_upload_speed := 0
        total_download_speed := 0
        total_uploaded := 0
        total_downloaded := 0
        last_snapshot := m }
  | s :: rest, m =>
      let r := computeRates (lookupSnap m s.name) now s.received s.transmitted
      let m1 := insertSnap m s.name
        { received := s.received, transmitted := s.transmitted, timestamp := now }
      let acc := netCollectLoop now rest m1
      { interfaces :=
          { name := s.name
            upload_speed := r.2
            download_speed := r.1
            total_uploaded := s.transmitted
            total_downloaded := s.received } :: acc.interfaces
        total_upload_speed := r.2 + acc.total_upload_speed
        total_download_speed := r.1 + acc.total_download_speed
        total_uploaded := s.transmitted + acc.total_uploaded
        total_downloaded := s.received + acc.total_downloaded
        last_snapshot := acc.last_snapshot }

/-- `NetworkCollector::collect`, with the refreshed interface enumeration
`samples` and the current instant `now` supplied by the environment.  Returns
the produced `NetworkInfo` together with the collector's updated state. -/
def NetworkCollector.collect (c : NetworkCollector) (now : ℚ)
    (samples : List NetIfSample) : NetworkInfo × NetworkCollector :=
  let acc := netCollectLoop now samples c.last_snapshot
  ({ interfaces := acc.interfaces
     total_upload_speed := acc.total_upload_speed
     total_download_speed := acc.total_download_speed
     total_uploaded := acc.total_uploaded
     total_downloaded := acc.total_downloaded },
   { last_snapshot := acc.last_snapshot })

/-! ## Memory collector (`memory.rs`) -/

/-- The readings `sysinfo::System` provides after `refresh_memory()`:
`total_memory`, `used_memory`, `available_memory`, `total_swap`, `used_swap`. -/
structure MemoryInput where
  total : Nat
  used : Nat
  available : Nat
  swap_total : Nat
  swap_used : Nat
  deriving Repr, DecidableEq

/-- `MemoryCollector` from `memory.rs`; its only field is the `sysinfo`
handle, which is the environment, so the collector state is trivial. -/
structure MemoryCollector where
  deriving Repr, DecidableEq

/-- `MemoryCollector::collect`, with the refreshed memory readings supplied
by the environment: copies the byte counts through and recomputes both usage
percentages, guarding a zero denominator with `0`. -/
def MemoryCollector.collect (inp : MemoryInput) : MemoryInfo :=
  { total := inp.total
    used := inp.used
    available := inp.available
    usage_percent :=
      if 0 < inp.total then ((inp.used : ℚ) / (inp.total : ℚ)) * 100 else 0
    swap_total := inp.swap_total
    swap_used := inp.swap_used
    swap_usage_percent :=
      if 0 < inp.swap_total then ((inp.swap_used : ℚ) / (inp.swap_total : ℚ)) * 100
      else 0 }

/-! ## Disk collector (`disk.rs`) -/

/-- One entry of the `sysinfo` disk enumeration that `self.disks.iter()`
walks after `refresh`: name, mount point, file system, `total_space`,
`available_space`, and the removability flag. -/
structure DiskSample where
  name : String
  mount_point : String
  file_system : String
  total_space : Nat
  available_space : Nat
  is_removable : Bool
  deriving Repr, DecidableEq

/-- Accumulator of the `for disk in self.disks.iter()` loop in
`DiskCollector::collect`. -/
structure DiskCollectAcc where
  disk_details : List DiskDetail
  total : Nat
  total_used : Nat
  total_available : Nat

/-- The disk loop of `DiskCollector::collect`: for each enumerated volume,
derive `used = total.saturating_sub(available)` and the zero-guarded usage
percentage, emit a `DiskDetail`, and accumulate the three totals over every
volume (removable ones included — the accumulation has no filter). -/
def diskCollectLoop : List DiskSample → DiskCollectAcc
  | [] =>
      { disk_details := []
        total := 0
        total_used := 0
        total_available := 0 }
  | d :: rest =>
      let disk_used := d.total_space - d.available_space
      let usage_percent : ℚ :=
        if 0 < d.total_space then ((disk_used : ℚ) / (d.total_space : ℚ)) * 100
        else 0
      let detail : DiskDetail :=
        { name := d.name
          mount_point := d.mount_point
          file_system := d.file_system
          total := d.total_space
          used := disk_used
          available := d.available_space
          usage_percent := usage_percent
          is_removable := d.is_removable }
      let acc := diskCollectLoop rest
      { disk_details := detail :: acc.disk_details
        total := d.total_space + acc.total
        total_used := disk_used + acc.total_used
        total_available := d.available_space + acc.total_available }

/-- `DiskCollector::collect`, with the refreshed volume enumeration supplied
by the environment: runs the loop and derives the zero-guarded aggregate
usage percentage. -/
def DiskCollector.collect (disks : List DiskSample) : DiskInfo :=
  let acc := diskCollectLoop disks
  { disks := acc.disk_details
    total := acc.total
    total_used := acc.total_used
    total_available := acc.total_available
    total_usage_percent :=
      if 0 < acc.total then ((acc.total_used : ℚ) / (acc.total : ℚ)) * 100
      else 0 }

/-! ## Monitor orchestrator (`mod.rs`)

`Monitor` holds the shared `MonitorState` (four lock-protected snapshot
slots plus the atomic `running` flag) and the `handles` vector of worker
join handles.  The sequential embedding keeps the slot contents, the flag,
and the number of join handles; `start` performs the `swap(true)`
test-and-set and pushes one handle, `stop` clears the flag and drains the
handle list.  The spawned worker's asynchronous sampling loop is not part
of the sequential state. -/

/-- The sequential state of `Monitor` + `MonitorState` from `mod.rs`:
the four snapshot slots, the `running` flag, and the length of the
`handles` vector. -/
structure Monitor where
  config : MonitorConfig
  cpu : CpuInfo
  memory : MemoryInfo
  disk : DiskInfo
  network : NetworkInfo
  running : Bool
  handles : Nat

/-- `Monitor::new(config)`: default (all-zero/empty) snapshot slots,
`running` false, empty handle list. -/
def Monitor.new (config : MonitorConfig) : Monitor :=
  { config := config
    cpu := CpuInfo.default
    memory := MemoryInfo.default
    disk := DiskInfo.default
    network := NetworkInfo.default
    running := false
    handles := 0 }

/-- `Monitor::start`: `self.state.running.swap(true)` — if the flag was
already set, return immediately with nothing changed; otherwise set it and
push the one spawned worker's join handle. -/
def Monitor.start (m : Monitor) : Monitor :=
  if m.running then m
  else { m with running := true, handles := m.handles + 1 }

/-- `Monitor::stop`: clear the running flag, then drain and join every
handle in the list. -/
def Monitor.stop (m : Monitor) : Monitor :=
  { m with running := false, handles := 0 }

/-- `Monitor::is_running`. -/
def Monitor.is_running (m : Monitor) : Bool :=
  m.running

/-- `Monitor::get_network_info`: clone of the network slot. -/
def Monitor.get_network_info (m : Monitor) : NetworkInfo :=
  m.network

/-- The environment data consumed by one `Monitor::refresh_all` call: the
output of the freshly built CPU collector (whose sensor readings are pure
environment; no claim depends on its computation), and the `sysinfo`
readings fed to the fresh memory, disk and network collectors, with the
`Instant::now()` of the network collection. -/
structure RefreshEnv where
  cpuResult : CpuInfo
  memInput : MemoryInput
  diskInput : List DiskSample
  netNow : ℚ
  netSamples : List NetIfSample

/-- `Monitor::refresh_all`: construct a fresh disposable collector per
domain and write each `collect()` result into the corresponding slot.  In
particular the network slot is written by `NetworkCollector::new()` —
whose baseline map is empty — collecting once. -/
def Monitor.refresh_all (m : Monitor) (env : RefreshEnv) : Monitor :=
  { m with
    cpu := env.cpuResult
    memory := MemoryCollector.collect env.memInput
    disk := DiskCollector.collect env.diskInput
    network := (NetworkCollector.new.collect env.netNow env.netSamples).1 }

/-! ## Association-list map lemmas -/

theorem lookupSnap_insertSnap_self (m : List (String × NetworkSnapshot))
    (k : String) (v : NetworkSnapshot) :
    lookupSnap (insertSnap m k v) k = some v := by
  induction m with
  | nil => simp [insertSnap, lookupSnap]
  | cons p rest ih =>
      by_cases h : p.1 = k
      · simp [insertSnap, lookupSnap, h]
      · simp only [insertSnap, lookupSnap]
        rw [if_neg h, lookupSnap, if_neg h]
        exact ih

theorem lookupSnap_insertSnap_ne (m : List (String × NetworkSnapshot))
    (k n : String) (v : NetworkSnapshot) (h : k ≠ n) :
    lookupSnap (insertSnap m k v) n = lookupSnap m n := by
  induction m with
  | nil => simp [insertSnap, lookupSnap, h]
  | cons p rest ih =>
      by_cases hp : p.1 = k
      · simp only [insertSnap]
        rw [if_pos hp, lookupSnap, lookupSnap, if_neg h, hp, if_neg h]
      · simp only [insertSnap]
        rw [if_neg hp, lookupSnap, lookupSnap]
        by_cases hn : p.1 = n
        · rw [if_pos hn, if_pos hn]
        · rw [if_neg hn, if_neg hn]
          exact ih

theorem mem_insertSnap (m : List (String × NetworkSnapshot))
    (k : String) (v : NetworkSnapshot) (p : String × NetworkSnapshot)
    (hp : p ∈ insertSnap m k v) : p = (k, v) ∨ p ∈ m := by
  induction m with
  | nil =>
      simp [insertSnap] at hp
      exact Or.inl hp
  | cons q rest ih =>
      by_cases hq : q.1 = k
      · simp only [insertSnap, if_pos hq, List.mem_cons] at hp
        rcases hp with h | h
        · exact Or.inl h
        · exact Or.inr (List.mem_cons_of_mem q h)
      · simp only [insertSnap, if_neg hq, List.mem_cons] at hp
        rcases hp with h | h
        · exact Or.inr (h ▸ List.mem_cons_self q rest)
        · rcases ih h with h' | h'
          · exact Or.inl h'
          · exact Or.inr (List.mem_cons_of_mem q h')

theorem lookupSnap_mem (m : List (String × NetworkSnapshot)) (n : String)
    (b : NetworkSnapshot) (hb : lookupSnap m n = some b) : (n, b) ∈ m := by
  induction m with
  | nil => simp [lookupSnap] at hb
  | cons p rest ih =>
      by_cases hp : p.1 = n
      · rw [lookupSnap, if_pos hp] at hb
        cases hb
        exact hp ▸ List.mem_cons_self p rest
      · rw [lookupSnap, if_neg hp] at hb
        exact List.mem_cons_of_mem p (ih hb)

/-! ## Network collector loop lemmas -/

/-- Interfaces absent from the current enumeration keep their stored
baseline untouched through the whole collect loop. -/
theorem netCollectLoop_lookup_absent (now : ℚ) (samples : List NetIfSample)
    (m : List (String × NetworkSnapshot)) (n : String)
    (habs : n ∉ samples.map NetIfSample.name) :
    lookupSnap (netCollectLoop now samples m).last_snapshot n = lookupSnap m n := by
  induction samples generalizing m with
  | nil => simp [netCollectLoop]
  | cons s rest ih =>
      simp only [List.map_cons, List.mem_cons] at habs
      push_neg at habs
      simp only [netCollectLoop]
      rw [ih _ habs.2]
      exact lookupSnap_insertSnap_ne m s.name n _ fun h => habs.1 h.symm

/-- Positional description of the emitted interface list: when interface
names are pairwise distinct, the `i`-th produced entry carries the rates
computed from the `i`-th sample against the baseline map as it stood at the
start of the call. -/
theorem netCollectLoop_get (now : ℚ) (samples : List NetIfSample)
    (m : List (String × NetworkSnapshot))
    (hnodup : (samples.map NetIfSample.name).Nodup)
    (i : Nat) (s : NetIfSample) (hs : samples[i]? = some s) :
    (netCollectLoop now samples m).interfaces[i]? = some
      { name := s.name
        upload_speed := (computeRates (lookupSnap m s.name) now s.received s.transmitted).2
        download_speed := (computeRates (lookupSnap m s.name) now s.received s.transmitted).1
        total_uploaded := s.transmitted
        total_downloaded := s.received } := by
  induction samples generalizing m i with
  | nil => simp at hs
  | cons hd tl ih =>
      simp only [List.map_cons, List.nodup_cons] at hnodup
      match i with
      | 0 =>
          simp only [List.getElem?_cons_zero, Option.some_inj] at hs
          subst hs
          simp [netCollectLoop]
      | j + 1 =>
          simp only [List.getElem?_cons_succ] at hs
          have hmem : s ∈ tl := List.getElem?_mem hs
          have hname : hd.name ≠ s.name := by
            intro h
            exact hnodup.1 (h ▸ List.mem_map_of_mem NetIfSample.name hmem)
          simp only [netCollectLoop, List.getElem?_cons_succ]
          rw [ih _ hnodup.2 j hs]
          rw [lookupSnap_insertSnap_ne m hd.name s.name _ hname]

/-- If every baseline stored in the map carries a timestamp not earlier
than `now`, every interface the loop emits has both speeds `0`, and the two
aggregate speed totals are `0`.  (Baselines inserted during the loop carry
the timestamp `now`, so the invariant is maintained.) -/
theorem netCollectLoop_zero_speeds (now : ℚ) (samples : List NetIfSample)
    (m : List (String × NetworkSnapshot))
    (hm : ∀ p ∈ m, now ≤ p.2.timestamp) :
    (∀ e ∈ (netCollectLoop now samples m).interfaces,
      e.upload_speed = 0 ∧ e.download_speed = 0) ∧
    (netCollectLoop now samples m).total_upload_speed = 0 ∧
    (netCollectLoop now samples m).total_download_speed = 0 := by
  induction samples generalizing m with
  | nil => simp [netCollectLoop]
  | cons s rest ih =>
      have hrate : computeRates (lookupSnap m s.name) now s.received s.transmitted
          = (0, 0) := by
        cases hb : lookupSnap m s.name with
        | none => simp [computeRates]
        | some b =>
            have hts : now ≤ b.timestamp := hm (s.name, b) (lookupSnap_mem m s.name b hb)
            have hel : elapsedSec now b.timestamp = 0 := by
              unfold elapsedSec
              simp [max_eq_right, sub_nonpos.mpr hts]
            simp [computeRates, hel]
      have hm1 : ∀ p ∈ insertSnap m s.name
          { received := s.received, transmitted := s.transmitted, timestamp := now },
          now ≤ p.2.timestamp := by
        intro p hp
        rcases mem_insertSnap m s.name _ p hp with h | h
        · subst h; exact le_refl now
        · exact hm p h
      obtain ⟨hall, hup, hdown⟩ := ih _ hm1
      refine ⟨?_, ?_, ?_⟩
      · intro e he
        simp only [netCollectLoop, List.mem_cons] at he
        rcases he with h | h
        · subst h
          simp [hrate]
        · exact hall e h
      · simp only [netCollectLoop]
        rw [hrate] at *
        simpa using hup
      · simp only [netCollectLoop]
        rw [hrate] at *
        simpa using hdown

/-- The four running totals each equal the sum of the corresponding field
over the emitted interface entries. -/
theorem netCollectLoop_totals (now : ℚ) (samples : List NetIfSample)
    (m : List (String × NetworkSnapshot)) :
    (netCollectLoop now samples m).total_upload_speed
        = ((netCollectLoop now samples m).interfaces.map
            NetworkInterfaceInfo.upload_speed).sum ∧
    (netCollectLoop now samples m).total_download_speed
        = ((netCollectLoop now samples m).interfaces.map
            NetworkInterfaceInfo.download_speed).sum ∧
    (netCollectLoop now samples m).total_uploaded
        = ((netCollectLoop now samples m).interfaces.map
            NetworkInterfaceInfo.total_uploaded).sum ∧
    (netCollectLoop now samples m).total_downloaded
        = ((netCollectLoop now samples m).interfaces.map
            NetworkInterfaceInfo.total_downloaded).sum := by
  induction samples generalizing m with
  | nil => simp [netCollectLoop]
  | cons s rest ih =>
      obtain ⟨h1, h2, h3, h4⟩ := ih (insertSnap m s.name
        { received := s.received, transmitted := s.transmitted, timestamp := now })
      simp only [netCollectLoop, List.map_cons, List.sum_cons]
      exact ⟨by rw [h1], by rw [h2], by rw [h3], by rw [h4]⟩

/-! ## Claim theorems: network collector -/

/-- C1: for every `NetworkCollector.collect` call and every enumerated
interface that has a stored baseline, if the elapsed wall-clock time since
that baseline is positive, the reported download rate is the
zero-saturating byte delta `current_received − baseline_received` divided
by the elapsed seconds (truncated to an integer by the `as u64` cast), and
symmetrically for the upload rate; if the elapsed time is `0`, both rates
are `0`. -/
theorem c1_rate_formula (c : NetworkCollector) (now : ℚ)
    (samples : List NetIfSample)
    (hnodup : (samples.map NetIfSample.name).Nodup)
    (i : Nat) (s : NetIfSample) (hs : samples[i]? = some s)
    (b : NetworkSnapshot) (hb : lookupSnap c.last_snapshot s.name = some b) :
    ∃ e, ((c.collect now samples).1.interfaces)[i]? = some e ∧
      e.download_speed =
        (if 0 < elapsedSec now b.timestamp
         then (⌊((s.received - b.received : Nat) : ℚ) / elapsedSec now b.timestamp⌋).toNat
         else 0) ∧
      e.upload_speed =
        (if 0 < elapsedSec now b.timestamp
         then (⌊((s.transmitted - b.transmitted : Nat) : ℚ) / elapsedSec now b.timestamp⌋).toNat
         else 0) := by
  have hget := netCollectLoop_get now samples c.last_snapshot hnodup i s hs
  refine ⟨{ name := s.name
            upload_speed := (computeRates (lookupSnap c.last_snapshot s.name)
              now s.received s.transmitted).2
            download_speed := (computeRates (lookupSnap c.last_snapshot s.name)
              now s.received s.transmitted).1
            total_uploaded := s.transmitted
            total_downloaded := s.received }, hget, ?_, ?_⟩
  · show (computeRates (lookupSnap c.last_snapshot s.name)
        now s.received s.transmitted).1 = _
    rw [hb]
    simp only [computeRates]
    by_cases hel : 0 < elapsedSec now b.timestamp
    · rw [if_pos hel, if_pos hel]
    · rw [if_neg hel, if_neg hel]
  · show (computeRates (lookupSnap c.last_snapshot s.name)
        now s.received s.transmitted).2 = _
    rw [hb]
    simp only [computeRates]
    by_cases hel : 0 < elapsedSec now b.timestamp
    · rw [if_pos hel, if_pos hel]
    · rw [if_neg hel, if_neg hel]

/-- Witness for C1: a collector holding a baseline `(100, 200)` taken at
instant `5` for `"eth0"`, sampled again at instant `7` with counters
`(300, 260)`: download rate `⌊200 / 2⌋ = 100`, upload rate `⌊60 / 2⌋ = 30`. -/
theorem c1_rate_formula_witness :
    ∃ e, (((NetworkCollector.mk [("eth0", ⟨100, 200, 5⟩)]).collect 7
        [⟨"eth0", 300, 260⟩]).1.interfaces)[0]? = some e ∧
      e.download_speed =
        (if 0 < elapsedSec 7 (⟨100, 200, 5⟩ : NetworkSnapshot).timestamp
         then (⌊(((⟨"eth0", 300, 260⟩ : NetIfSample).received
                  - (⟨100, 200, 5⟩ : NetworkSnapshot).received : Nat) : ℚ)
                / elapsedSec 7 (⟨100, 200, 5⟩ : NetworkSnapshot).timestamp⌋).toNat
         else 0) ∧
      e.upload_speed =
        (if 0 < elapsedSec 7 (⟨100, 200, 5⟩ : NetworkSnapshot).timestamp
         then (⌊(((⟨"eth0", 300, 260⟩ : NetIfSample).transmitted
                  - (⟨100, 200, 5⟩ : NetworkSnapshot).transmitted : Nat) : ℚ)
                / elapsedSec 7 (⟨100, 200, 5⟩ : NetworkSnapshot).timestamp⌋).toNat
         else 0) :=
  c1_rate_formula (NetworkCollector.mk [("eth0", ⟨100, 200, 5⟩)]) 7
    [⟨"eth0", 300, 260⟩] (by simp) 0 ⟨"eth0", 300, 260⟩ rfl ⟨100, 200, 5⟩ rfl

/-- C3: one `collect` on a freshly constructed `NetworkCollector` (empty
baseline map) reports upload and download speed `0` for every interface,
and hence aggregate speed totals `0`, whatever the counters are. -/
theorem c3_first_collect_zero_rates (now : ℚ) (samples : List NetIfSample) :
    (∀ e ∈ (NetworkCollector.new.collect now samples).1.interfaces,
      e.upload_speed = 0 ∧ e.download_speed = 0) ∧
    (NetworkCollector.new.collect now samples).1.total_upload_speed = 0 ∧
    (NetworkCollector.new.collect now samples).1.total_download_speed = 0 := by
  have h := netCollectLoop_zero_speeds now samples [] (by intro p hp; simp at hp)
  exact h

/-- Witness for C3 at a concrete enumeration with nonzero counters. -/
theorem c3_first_collect_zero_rates_witness :
    (NetworkCollector.new.collect 5 [⟨"eth0", 100, 200⟩, ⟨"lo", 7, 7⟩]).1.total_upload_speed = 0 ∧
    (NetworkCollector.new.collect 5 [⟨"eth0", 100, 200⟩, ⟨"lo", 7, 7⟩]).1.total_download_speed = 0 :=
  (c3_first_collect_zero_rates 5 [⟨"eth0", 100, 200⟩, ⟨"lo", 7, 7⟩]).2

/-- C4: for every `NetworkInfo` returned by `collect`, over any number of
interfaces, the four aggregate fields equal the sums of the corresponding
per-interface fields of the result. -/
theorem c4_network_aggregates_are_sums (c : NetworkCollector) (now : ℚ)
    (samples : List NetIfSample) :
    (c.collect now samples).1.total_upload_speed
        = ((c.collect now samples).1.interfaces.map
            NetworkInterfaceInfo.upload_speed).sum ∧
    (c.collect now samples).1.total_download_speed
        = ((c.collect now samples).1.interfaces.map
            NetworkInterfaceInfo.download_speed).sum ∧
    (c.collect now samples).1.total_uploaded
        = ((c.collect now samples).1.interfaces.map
            NetworkInterfaceInfo.total_uploaded).sum ∧
    (c.collect now samples).1.total_downloaded
        = ((c.collect now samples).1.interfaces.map
            NetworkInterfaceInfo.total_downloaded).sum :=
  netCollectLoop_totals now samples c.last_snapshot

/-- C10: the baseline map never evicts.  An interface absent from the
current enumeration keeps its stored baseline verbatim, and when it later
reappears with positive elapsed time, its rates are computed from that
retained baseline via the saturating delta — not treated as first-seen. -/
theorem c10_baseline_never_evicted (c : NetworkCollector) (now now2 : ℚ)
    (samples : List NetIfSample) (n : String) (b : NetworkSnapshot)
    (habs : n ∉ samples.map NetIfSample.name)
    (hb : lookupSnap c.last_snapshot n = some b)
    (r t : Nat) (hpos : 0 < elapsedSec now2 b.timestamp) :
    lookupSnap ((c.collect now samples).2.last_snapshot) n = some b ∧
    ((c.collect now samples).2.collect now2 [⟨n, r, t⟩]).1.interfaces =
      [{ name := n
         upload_speed := (⌊((t - b.transmitted : Nat) : ℚ) / elapsedSec now2 b.timestamp⌋).toNat
         download_speed := (⌊((r - b.received : Nat) : ℚ) / elapsedSec now2 b.timestamp⌋).toNat
         total_uploaded := t
         total_downloaded := r }] := by
  have hkeep : lookupSnap ((c.collect now samples).2.last_snapshot) n = some b := by
    show lookupSnap (netCollectLoop now samples c.last_snapshot).last_snapshot n = some b
    rw [netCollectLoop_lookup_absent now samples c.last_snapshot n habs]
    exact hb
  refine ⟨hkeep, ?_⟩
  show (netCollectLoop now2 [⟨n, r, t⟩] (c.collect now samples).2.last_snapshot).interfaces = _
  simp only [netCollectLoop]
  rw [hkeep]
  simp [computeRates, hpos]

/-- Witness for C10: baseline `(100, 200)` at instant `5` for `"wlan0"`, a
collect at instant `6` enumerating only `"eth0"`, then `"wlan0"` reappears
at instant `9` with counters `(500, 600)`: its baseline survived and the
rates are `⌊400/4⌋ = 100` down, `⌊400/4⌋ = 100` up. -/
theorem c10_baseline_never_evicted_witness :
    lookupSnap (((NetworkCollector.mk [("wlan0", ⟨100, 200, 5⟩)]).collect 6
        [⟨"eth0", 10, 20⟩]).2.last_snapshot) "wlan0" = some ⟨100, 200, 5⟩ ∧
    (((NetworkCollector.mk [("wlan0", ⟨100, 200, 5⟩)]).collect 6
        [⟨"eth0", 10, 20⟩]).2.collect 9 [⟨"wlan0", 500, 600⟩]).1.interfaces =
      [{ name := "wlan0"
         upload_speed := (⌊((600 - (⟨100, 200, 5⟩ : NetworkSnapshot).transmitted : Nat) : ℚ)
            / elapsedSec 9 (⟨100, 200, 5⟩ : NetworkSnapshot).timestamp⌋).toNat
         download_speed := (⌊((500 - (⟨100, 200, 5⟩ : NetworkSnapshot).received : Nat) : ℚ)
            / elapsedSec 9 (⟨100, 200, 5⟩ : NetworkSnapshot).timestamp⌋).toNat
         total_uploaded := 600
         total_downloaded := 500 }] :=
  c10_baseline_never_evicted (NetworkCollector.mk [("wlan0", ⟨100, 200, 5⟩)]) 6 9
    [⟨"eth0", 10, 20⟩] "wlan0" ⟨100, 200, 5⟩ (by simp) rfl 500 600 (by norm_num [elapsedSec])

/-! ## Percentage arithmetic lemmas -/

theorem pct_nonneg (a b : Nat) : 0 ≤ ((a : ℚ) / (b : ℚ)) * 100 := by
  positivity

theorem pct_le_100 (a b : Nat) (hab : a ≤ b) (hb : 0 < b) :
    ((a : ℚ) / (b : ℚ)) * 100 ≤ 100 := by
  have hb' : (0 : ℚ) < (b : ℚ) := by exact_mod_cast hb
  have h1 : (a : ℚ) / (b : ℚ) ≤ 1 := (div_le_one hb').mpr (by exact_mod_cast hab)
  nlinarith

/-! ## Disk collector loop lemmas -/

/-- Positional description of the emitted disk entries: the `i`-th detail
is derived from the `i`-th enumerated volume, with saturating `used` and a
zero-guarded usage percentage. -/
theorem diskCollectLoop_details_get (ds : List DiskSample) (i : Nat)
    (d : DiskSample) (hd : ds[i]? = some d) :
    (diskCollectLoop ds).disk_details[i]? = some
      { name := d.name
        mount_point := d.mount_point
        file_system := d.file_system
        total := d.total_space
        used := d.total_space - d.available_space
        available := d.available_space
        usage_percent :=
          if 0 < d.total_space
          then (((d.total_space - d.available_space : Nat) : ℚ)
                 / (d.total_space : ℚ)) * 100
          else 0
        is_removable := d.is_removable } := by
  induction ds generalizing i with
  | nil => simp at hd
  | cons hd' tl ih =>
      match i with
      | 0 =>
          simp only [List.getElem?_cons_zero, Option.some_inj] at hd
          subst hd
          simp [diskCollectLoop]
      | j + 1 =>
          simp only [List.getElem?_cons_succ] at hd
          simp only [diskCollectLoop, List.getElem?_cons_succ]
          exact ih j hd

/-- Every emitted disk entry has `used ≤ total`. -/
theorem diskCollectLoop_used_le_total (ds : List DiskSample) :
    ∀ e ∈ (diskCollectLoop ds).disk_details, e.used ≤ e.total := by
  induction ds with
  | nil => simp [diskCollectLoop]
  | cons d tl ih =>
      intro e he
      simp only [diskCollectLoop, List.mem_cons] at he
      rcases he with h | h
      · subst h
        exact Nat.sub_le _ _
      · exact ih e h

/-- The aggregate `total_used` never exceeds the aggregate `total`. -/
theorem diskCollectLoop_total_used_le (ds : List DiskSample) :
    (diskCollectLoop ds).total_used ≤ (diskCollectLoop ds).total := by
  induction ds with
  | nil => simp [diskCollectLoop]
  | cons d tl ih =>
      simp only [diskCollectLoop]
      exact Nat.add_le_add (Nat.sub_le _ _) ih

/-- The three disk aggregates are the sums of the corresponding fields over
the emitted entries, and the entries mirror the enumeration one-to-one
(in particular the removability flags line up — nothing is filtered). -/
theorem diskCollectLoop_sums (ds : List DiskSample) :
    (diskCollectLoop ds).total
        = ((diskCollectLoop ds).disk_details.map DiskDetail.total).sum ∧
    (diskCollectLoop ds).total_used
        = ((diskCollectLoop ds).disk_details.map DiskDetail.used).sum ∧
    (diskCollectLoop ds).total_available
        = ((diskCollectLoop ds).disk_details.map DiskDetail.available).sum ∧
    (diskCollectLoop ds).disk_details.map DiskDetail.is_removable
        = ds.map DiskSample.is_removable ∧
    (diskCollectLoop ds).disk_details.length = ds.length := by
  induction ds with
  | nil => simp [diskCollectLoop]
  | cons d tl ih =>
      obtain ⟨h1, h2, h3, h4, h5⟩ := ih
      simp only [diskCollectLoop, List.map_cons, List.sum_cons, List.length_cons]
      exact ⟨by rw [h1], by rw [h2], by rw [h3], by rw [h4], by rw [h5]⟩

/-- Every emitted disk entry's usage percentage is in `[0, 100]` and is `0`
when the entry's total is `0`. -/
theorem diskCollectLoop_percent_bounds (ds : List DiskSample) :
    ∀ e ∈ (diskCollectLoop ds).disk_details,
      0 ≤ e.usage_percent ∧ e.usage_percent ≤ 100 ∧
        (e.total = 0 → e.usage_percent = 0) := by
  induction ds with
  | nil => simp [diskCollectLoop]
  | cons d tl ih =>
      intro e he
      simp only [diskCollectLoop, List.mem_cons] at he
      rcases he with h | h
      · subst h
        have hval :
            ({ name := d.name
               mount_point := d.mount_point
               file_system := d.file_system
               total := d.total_space
               used := d.total_space - d.available_space
               available := d.available_space
               usage_percent :=
                 if 0 < d.total_space
                 then (((d.total_space - d.available_space : Nat) : ℚ)
                        / (d.total_space : ℚ)) * 100
                 else 0
               is_removable := d.is_removable } : DiskDetail).usage_percent
            = if 0 < d.total_space
              then (((d.total_space - d.available_space : Nat) : ℚ)
                     / (d.total_space : ℚ)) * 100
              else 0 := rfl
        rw [hval]
        by_cases ht : 0 < d.total_space
        · rw [if_pos ht]
          exact ⟨pct_nonneg _ _, pct_le_100 _ _ (Nat.sub_le _ _) ht,
            fun h0 => absurd (show d.total_space = 0 from h0) (by omega)⟩
        · rw [if_neg ht]
          exact ⟨le_refl 0, by norm_num, fun _ => rfl⟩
      · exact ih e h

/-! ## Claim theorems: memory and disk percentages (C2) -/

/-- Counterexample to C2 as stated: the memory collector does not clamp,
so a reading with `used > total` (here `used = 200`, `total = 100`) yields
a usage percentage of `200`, outside `[0, 100]`. -/
theorem c2_counterexample :
    ¬ (MemoryCollector.collect ⟨100, 200, 0, 0, 0⟩).usage_percent ≤ 100 := by
  norm_num [MemoryCollector.collect]

/-- C2 amended: every percentage field is nonnegative and is exactly `0`
when its denominator is `0`; the disk percentages (per entry and aggregate)
and the default snapshots always lie in `[0, 100]`; the memory and swap
percentages lie in `[0, 100]` provided the reported used bytes do not
exceed the reported total bytes (the code does not clamp a pathological
reading with `used > total`). -/
theorem c2_percentages_amended (inp : MemoryInput) (ds : List DiskSample)
    (hused : inp.used ≤ inp.total) (hswap : inp.swap_used ≤ inp.swap_total) :
    (0 ≤ (MemoryCollector.collect inp).usage_percent ∧
      (MemoryCollector.collect inp).usage_percent ≤ 100 ∧
      (inp.total = 0 → (MemoryCollector.collect inp).usage_percent = 0)) ∧
    (0 ≤ (MemoryCollector.collect inp).swap_usage_percent ∧
      (MemoryCollector.collect inp).swap_usage_percent ≤ 100 ∧
      (inp.swap_total = 0 → (MemoryCollector.collect inp).swap_usage_percent = 0)) ∧
    (∀ e ∈ (DiskCollector.collect ds).disks,
      0 ≤ e.usage_percent ∧ e.usage_percent ≤ 100 ∧
        (e.total = 0 → e.usage_percent = 0)) ∧
    (0 ≤ (DiskCollector.collect ds).total_usage_percent ∧
      (DiskCollector.collect ds).total_usage_percent ≤ 100 ∧
      ((DiskCollector.collect ds).total = 0 →
        (DiskCollector.collect ds).total_usage_percent = 0)) ∧
    (MemoryInfo.default.usage_percent = 0 ∧
      MemoryInfo.default.swap_usage_percent = 0 ∧
      DiskInfo.default.total_usage_percent = 0 ∧
      NetworkInfo.default.total_upload_speed = 0) := by
  refine ⟨?_, ?_, ?_, ?_, rfl, rfl, rfl, rfl⟩
  · have hval : (MemoryCollector.collect inp).usage_percent
        = if 0 < inp.total then ((inp.used : ℚ) / (inp.total : ℚ)) * 100 else 0 := rfl
    rw [hval]
    by_cases ht : 0 < inp.total
    · rw [if_pos ht]
      exact ⟨pct_nonneg _ _, pct_le_100 _ _ hused ht,
        fun h0 => absurd h0 (by omega)⟩
    · rw [if_neg ht]
      exact ⟨le_refl 0, by norm_num, fun _ => rfl⟩
  · have hval : (MemoryCollector.collect inp).swap_usage_percent
        = if 0 < inp.swap_total
          then ((inp.swap_used : ℚ) / (inp.swap_total : ℚ)) * 100 else 0 := rfl
    rw [hval]
    by_cases ht : 0 < inp.swap_total
    · rw [if_pos ht]
      exact ⟨pct_nonneg _ _, pct_le_100 _ _ hswap ht,
        fun h0 => absurd h0 (by omega)⟩
    · rw [if_neg ht]
      exact ⟨le_refl 0, by norm_num, fun _ => rfl⟩
  · exact diskCollectLoop_percent_bounds ds
  · have hval : (DiskCollector.collect ds).total_usage_percent
        = if 0 < (diskCollectLoop ds).total
          then (((diskCollectLoop ds).total_used : ℚ)
                 / ((diskCollectLoop ds).total : ℚ)) * 100 else 0 := rfl
    have htot : (DiskCollector.collect ds).total = (diskCollectLoop ds).total := rfl
    rw [hval, htot]
    by_cases ht : 0 < (diskCollectLoop ds).total
    · rw [if_pos ht]
      exact ⟨pct_nonneg _ _,
        pct_le_100 _ _ (diskCollectLoop_total_used_le ds) ht,
        fun h0 => absurd h0 (by omega)⟩
    · rw [if_neg ht]
      exact ⟨le_refl 0, by norm_num, fun _ => rfl⟩

/-- Witness for the amended C2 at a concrete memory reading and disk
enumeration (including a zero-total and a removable volume). -/
theorem c2_percentages_amended_witness :
    (MemoryCollector.collect ⟨100, 30, 70, 50, 25⟩).usage_percent ≤ 100 ∧
    (DiskCollector.collect [⟨"d0", "/", "ext4", 100, 30, false⟩,
        ⟨"d1", "/mnt", "vfat", 0, 5, true⟩]).total_usage_percent ≤ 100 :=
  ⟨((c2_percentages_amended ⟨100, 30, 70, 50, 25⟩
      [⟨"d0", "/", "ext4", 100, 30, false⟩, ⟨"d1", "/mnt", "vfat", 0, 5, true⟩]
      (by decide) (by decide)).1).2.1,
   ((c2_percentages_amended ⟨100, 30, 70, 50, 25⟩
      [⟨"d0", "/", "ext4", 100, 30, false⟩, ⟨"d1", "/mnt", "vfat", 0, 5, true⟩]
      (by decide) (by decide)).2).2.2.1.2.1⟩

/-! ## Claim theorems: disk collector (C5, C9) -/

/-- C5: every disk entry has `used = total − available` saturating (so
`used + available = total` when `available ≤ total`, and `used = 0` when
`available > total`), and `usage_percent = used/total·100` when
`total > 0`, `0` when `total = 0`. -/
theorem c5_disk_entry_derivation (ds : List DiskSample) (i : Nat)
    (d : DiskSample) (hd : ds[i]? = some d) :
    ∃ e, (DiskCollector.collect ds).disks[i]? = some e ∧
      (d.available_space ≤ d.total_space →
        e.used + d.available_space = d.total_space) ∧
      (d.total_space < d.available_space → e.used = 0) ∧
      (0 < d.total_space →
        e.usage_percent = ((e.used : ℚ) / (d.total_space : ℚ)) * 100) ∧
      (d.total_space = 0 → e.usage_percent = 0) := by
  refine ⟨_, diskCollectLoop_details_get ds i d hd, ?_, ?_, ?_, ?_⟩
  · intro h
    exact Nat.sub_add_cancel h
  · intro h
    exact Nat.sub_eq_zero_of_le (Nat.le_of_lt h)
  · intro h
    show (if 0 < d.total_space then _ else _) = _
    rw [if_pos h]
  · intro h
    show (if 0 < d.total_space then _ else _) = 0
    rw [if_neg (by omega)]

/-- Witness for C5: a healthy volume (`total = 100`, `available = 30`). -/
theorem c5_disk_entry_derivation_witness :
    ∃ e, (DiskCollector.collect [⟨"d0", "/", "ext4", 100, 30, false⟩]).disks[0]? = some e ∧
      ((⟨"d0", "/", "ext4", 100, 30, false⟩ : DiskSample).available_space ≤
          (⟨"d0", "/", "ext4", 100, 30, false⟩ : DiskSample).total_space →
        e.used + (⟨"d0", "/", "ext4", 100, 30, false⟩ : DiskSample).available_space
          = (⟨"d0", "/", "ext4", 100, 30, false⟩ : DiskSample).total_space) ∧
      ((⟨"d0", "/", "ext4", 100, 30, false⟩ : DiskSample).total_space <
          (⟨"d0", "/", "ext4", 100, 30, false⟩ : DiskSample).available_space →
        e.used = 0) ∧
      (0 < (⟨"d0", "/", "ext4", 100, 30, false⟩ : DiskSample).total_space →
        e.usage_percent = ((e.used : ℚ) /
          ((⟨"d0", "/", "ext4", 100, 30, false⟩ : DiskSample).total_space : ℚ)) * 100) ∧
      ((⟨"d0", "/", "ext4", 100, 30, false⟩ : DiskSample).total_space = 0 →
        e.usage_percent = 0) :=
  c5_disk_entry_derivation [⟨"d0", "/", "ext4", 100, 30, false⟩] 0
    ⟨"d0", "/", "ext4", 100, 30, false⟩ rfl

/-- C9: the disk aggregates are the straight sums of the corresponding
fields over every enumerated volume — the produced entry list mirrors the
enumeration one-to-one (same length, removability flags preserved, so
removable volumes are included) and no filtering is applied. -/
theorem c9_disk_aggregates_unfiltered (ds : List DiskSample) :
    (DiskCollector.collect ds).total
        = ((DiskCollector.collect ds).disks.map DiskDetail.total).sum ∧
    (DiskCollector.collect ds).total_used
        = ((DiskCollector.collect ds).disks.map DiskDetail.used).sum ∧
    (DiskCollector.collect ds).total_available
        = ((DiskCollector.collect ds).disks.map DiskDetail.available).sum ∧
    (DiskCollector.collect ds).disks.map DiskDetail.is_removable
        = ds.map DiskSample.is_removable ∧
    (DiskCollector.collect ds).disks.length = ds.length :=
  diskCollectLoop_sums ds

/-! ## Monitor lifecycle lemmas -/

/-- Reachability invariant of the sequential monitor state: a stopped
monitor holds no join handles, and the handle list never holds more than
one handle. -/
def MonitorInv (m : Monitor) : Prop :=
  (m.running = false → m.handles = 0) ∧ m.handles ≤ 1

theorem monitorInv_new (config : MonitorConfig) : MonitorInv (Monitor.new config) :=
  ⟨fun _ => rfl, Nat.zero_le 1⟩

theorem monitorInv_start (m : Monitor) (h : MonitorInv m) : MonitorInv m.start := by
  unfold MonitorInv Monitor.start
  by_cases hr : m.running
  · rw [if_pos hr]
    exact h
  · rw [if_neg hr]
    refine ⟨fun hc => by simp at hc, ?_⟩
    have : m.handles = 0 := h.1 (by simpa using hr)
    simp [this]

theorem iterate_start_handles (config : MonitorConfig) (n : Nat) :
    (Monitor.start^[n] (Monitor.new config)).handles ≤ 1 := by
  have h : MonitorInv (Monitor.start^[n] (Monitor.new config)) := by
    induction n with
    | zero => exact monitorInv_new config
    | succ k ih =>
        rw [Function.iterate_succ_apply']
        exact monitorInv_start _ ih
  exact h.2

/-! ## Claim theorems: monitor lifecycle (C6, C7, C8) -/

/-- C6: `start` is idempotent — when the running flag is already set the
call changes nothing (same flag, same slots, same join-handle list), and
any number of `start` calls from a fresh monitor leaves at most one join
handle (at most one worker thread). -/
theorem c6_start_idempotent (m : Monitor) (config : MonitorConfig) (n : Nat)
    (h : m.running = true) :
    m.start = m ∧ (Monitor.start^[n] (Monitor.new config)).handles ≤ 1 := by
  constructor
  · unfold Monitor.start
    rw [if_pos h]
  · exact iterate_start_handles config n

/-- Witness for C6: a started fresh monitor is running, so a second
`start` is the identity, and three consecutive `start` calls leave one
handle. -/
theorem c6_start_idempotent_witness :
    ((Monitor.new MonitorConfig.default).start).start
        = (Monitor.new MonitorConfig.default).start ∧
    (Monitor.start^[3] (Monitor.new MonitorConfig.default)).handles ≤ 1 :=
  c6_start_idempotent ((Monitor.new MonitorConfig.default).start)
    MonitorConfig.default 3 rfl

/-- C7: after `stop` the monitor is not running and the join-handle list is
empty; `stop` on a monitor that is not running (and hence, per the
reachable-state invariant, holds no handles) is a complete no-op.  This is
stated for every monitor state, hence for every prior `start`/`stop`
sequence. -/
theorem c7_stop_clears (m : Monitor) :
    (m.stop).is_running = false ∧ (m.stop).handles = 0 ∧
    (m.running = false → m.handles = 0 → m.stop = m) := by
  refine ⟨rfl, rfl, fun hr hh => ?_⟩
  unfold Monitor.stop
  cases m
  simp_all

/-- Witness for C7: stopping a fresh (never started) monitor reports not
running and is a no-op. -/
theorem c7_stop_clears_witness :
    ((Monitor.new MonitorConfig.default).stop).is_running = false ∧
    (Monitor.new MonitorConfig.default).stop = Monitor.new MonitorConfig.default :=
  ⟨(c7_stop_clears (Monitor.new MonitorConfig.default)).1,
   (c7_stop_clears (Monitor.new MonitorConfig.default)).2.2 rfl rfl⟩

/-- C8: `refresh_all` collects through a freshly constructed
`NetworkCollector` whose baseline map is empty, so the network snapshot it
writes — returned by a subsequent `get_network_info` — has upload and
download speed `0` on every interface and zero aggregate speeds: each
`refresh_all` call resets the rate history to the no-baseline state. -/
theorem c8_refresh_all_resets_network_rates (m : Monitor) (env : RefreshEnv) :
    (∀ e ∈ ((m.refresh_all env).get_network_info).interfaces,
      e.upload_speed = 0 ∧ e.download_speed = 0) ∧
    ((m.refresh_all env).get_network_info).total_upload_speed = 0 ∧
    ((m.refresh_all env).get_network_info).total_download_speed = 0 := by
  have hnet : (m.refresh_all env).get_network_info
      = (NetworkCollector.new.collect env.netNow env.netSamples).1 := rfl
  rw [hnet]
  exact netCollectLoop_zero_speeds env.netNow env.netSamples []
    (by intro p hp; simp at hp)

/-- Witness for C8: a default monitor refreshed against an environment
whose interfaces carry large nonzero counters still publishes zero rates. -/
theorem c8_refresh_all_resets_network_rates_witness :
    (((Monitor.new MonitorConfig.default).refresh_all
        ⟨CpuInfo.default, ⟨16, 8, 8, 4, 2⟩, [⟨"d0", "/", "ext4", 100, 30, false⟩],
          42, [⟨"eth0", 123456, 654321⟩]⟩).get_network_info).total_upload_speed = 0 ∧
    (((Monitor.new MonitorConfig.default).refresh_all
        ⟨CpuInfo.default, ⟨16, 8, 8, 4, 2⟩, [⟨"d0", "/", "ext4", 100, 30, false⟩],
          42, [⟨"eth0", 123456, 654321⟩]⟩).get_network_info).total_download_speed = 0 :=
  (c8_refresh_all_resets_network_rates (Monitor.new MonitorConfig.default)
    ⟨CpuInfo.default, ⟨16, 8, 8, 4, 2⟩, [⟨"d0", "/", "ext4", 100, 30, false⟩],
      42, [⟨"eth0", 123456, 654321⟩]⟩).2

end CornerMonitor
